import Mathlib

/-!
Verification of the defGeometry2D header (`src/defGeometry2D.hpp`).

The C++ source is a header-only template library over numeric scalar types;
we embed it shallowly with the scalar type taken to be the exact reals, the
standard idealisation of the source's `double` arithmetic.  Every `intersects`
overload of the source receives the caller's `std::vector` of intersection
points by reference and returns a `bool`; we model that by passing the
vector's current contents in as a list (`acc`) and returning the pair of the
vector's final contents and the boolean.  The optional side outputs
(`side*` / `std::vector<side>*`) are modelled in their non-null form, as an
`Option Nat` value respectively a `List Nat` that the call extends.
-/

noncomputable section

namespace DefGeometry2D

open Classical

/-- Tolerance constant, `constexpr double EPSILON = 0.1` (line 52). -/
def EPSILON : ℝ := 0.1

/-- Scalar fuzzy equality `utils::equal` (lines 759-763):
`abs(lhs - rhs) <= EPSILON`. -/
def equal (a b : ℝ) : Bool := decide (|a - b| ≤ EPSILON)

/-- The 2-component vector / point type `vec2d<T>` (lines 61-110). -/
structure Vec where
  x : ℝ
  y : ℝ

/-- Componentwise vector addition, `operator+(vec2d, vec2d)` (lines 499-503). -/
instance : Add Vec := ⟨fun v w => ⟨v.x + w.x, v.y + w.y⟩⟩

/-- Componentwise vector subtraction, `operator-(vec2d, vec2d)` (lines 505-509). -/
instance : Sub Vec := ⟨fun v w => ⟨v.x - w.x, v.y - w.y⟩⟩

/-- `operator-(vec2d, scalar)` (lines 535-539), broadcast subtraction. -/
def Vec.subScalar (v : Vec) (s : ℝ) : Vec := ⟨v.x - s, v.y - s⟩

/-- `operator*(scalar, vec2d)` (lines 565-569). -/
def Vec.smul (s : ℝ) (v : Vec) : Vec := ⟨s * v.x, s * v.y⟩

/-- `operator*(vec2d, scalar)` (lines 541-545). -/
def Vec.scale (v : Vec) (s : ℝ) : Vec := ⟨v.x * s, v.y * s⟩

/-- The vector with both components equal to `s`.  The source builds such a
vector at line 914 via the one-argument construction `vec2d<T2>(c.radius * 2)`
for the circle's bounding square of side `2 * radius` (spec section 4.2). -/
def Vec.broadcast (s : ℝ) : Vec := ⟨s, s⟩

/-- `vec2d::dot` (lines 643-647): `x * v.x + y * v.y`. -/
def Vec.dot (v w : Vec) : ℝ := v.x * w.x + v.y * w.y

/-- `vec2d::mag2` (lines 673-677): `x * x + y * y`. -/
def Vec.mag2 (v : Vec) : ℝ := v.x * v.x + v.y * v.y

/-- `vec2d::mag` (lines 667-671): `sqrt(x * x + y * y)`. -/
def Vec.mag (v : Vec) : ℝ := Real.sqrt (v.x * v.x + v.y * v.y)

/-- `vec2d::dist` (lines 637-641): `(*this - v).length()`, and
`vec2d::length` (lines 661-665) is `mag()`. -/
def Vec.dist (v w : Vec) : ℝ := (v - w).mag

/-- `vec2d::lerp` (lines 631-635): `std::lerp` on each component, where
`std::lerp(a, b, t) = a + t * (b - a)`. -/
def Vec.lerp (v w : Vec) (t : ℝ) : Vec :=
  ⟨v.x + t * (w.x - v.x), v.y + t * (w.y - v.y)⟩

/-- `vec2d::norm` (lines 704-709): `n = 1 / mag(); return {x * n, y * n}`. -/
def Vec.norm (v : Vec) : Vec := ⟨v.x * (1 / v.mag), v.y * (1 / v.mag)⟩

/-- `operator<=(vec2d, vec2d)` (lines 595-599): conjunction over components. -/
def Vec.le (v w : Vec) : Bool := decide (v.x ≤ w.x) && decide (v.y ≤ w.y)

/-- `operator>=(vec2d, vec2d)` (lines 601-605): conjunction over components. -/
def Vec.ge (v w : Vec) : Bool := decide (v.x ≥ w.x) && decide (v.y ≥ w.y)

/-- `utils::equal` applied to two vectors, as done at line 1169:
`abs(lhs - rhs) <= EPSILON` read with the componentwise vector `abs`
(lines 711-715) and componentwise comparison, i.e. both component
differences are within `EPSILON`. -/
def vequal (v w : Vec) : Bool := equal v.x w.x && equal v.y w.y

/-- The line-segment type `line<T>` (lines 222-234); `end` is a Lean keyword,
so the second endpoint is called `endp`. -/
structure Line where
  start : Vec
  endp : Vec

/-- `line::vector` (lines 872-876): `end - start`. -/
def Line.vector (l : Line) : Vec := l.endp - l.start

/-- `line::dist` (lines 1229-1242): perpendicular distance from `v` to the
infinite line through `start`/`end`, with the degenerate-segment fallback
`if (a == 0 && b == 0) return v.dist(start);`. -/
def Line.dist (l : Line) (v : Vec) : ℝ :=
  let a := l.endp.y - l.start.y
  let b := l.start.x - l.endp.x
  if a = 0 ∧ b = 0 then v.dist l.start
  else
    let c := l.endp.x * l.start.y - l.start.x * l.endp.y
    |a * v.x + b * v.y + c| / Real.sqrt (a * a + b * b)

/-- The axis-aligned rectangle type `rect<T>` (lines 245-270). -/
structure Rect where
  pos : Vec
  size : Vec

/-- `rect::top_left` (lines 808-812): `pos`. -/
def Rect.top_left (r : Rect) : Vec := r.pos

/-- `rect::top_right` (lines 814-818): `{pos.x + size.x, pos.y}`. -/
def Rect.top_right (r : Rect) : Vec := ⟨r.pos.x + r.size.x, r.pos.y⟩

/-- `rect::bottom_left` (lines 820-824): `{pos.x, pos.y + size.y}`. -/
def Rect.bottom_left (r : Rect) : Vec := ⟨r.pos.x, r.pos.y + r.size.y⟩

/-- `rect::bottom_right` (lines 826-830): `pos + size`. -/
def Rect.bottom_right (r : Rect) : Vec := r.pos + r.size

/-- `rect::left` (lines 784-788): `{pos, {pos.x, pos.y + size.y}}`. -/
def Rect.left (r : Rect) : Line := ⟨r.pos, ⟨r.pos.x, r.pos.y + r.size.y⟩⟩

/-- `rect::top` (lines 790-794): `{pos, {pos.x + size.x, pos.y}}`. -/
def Rect.top (r : Rect) : Line := ⟨r.pos, ⟨r.pos.x + r.size.x, r.pos.y⟩⟩

/-- `rect::right` (lines 796-800): `{{pos.x + size.x, pos.y}, bottom_right()}`. -/
def Rect.right (r : Rect) : Line := ⟨⟨r.pos.x + r.size.x, r.pos.y⟩, r.bottom_right⟩

/-- `rect::bottom` (lines 802-806): `{{pos.x, pos.y + size.y}, bottom_right()}`. -/
def Rect.bottom (r : Rect) : Line := ⟨⟨r.pos.x, r.pos.y + r.size.y⟩, r.bottom_right⟩

/-- `rect::side` (lines 832-844): the switch over
`SIDE_LEFT = 0, SIDE_TOP = 1, SIDE_RIGHT = 2, SIDE_BOTTOM = 3`, with the
default-constructed line `{}` for any other index. -/
def Rect.side (r : Rect) (i : ℕ) : Line :=
  match i with
  | 0 => r.left
  | 1 => r.top
  | 2 => r.right
  | 3 => r.bottom
  | _ => ⟨⟨0, 0⟩, ⟨0, 0⟩⟩

/-- The circle type `circle<T>` (lines 209-220). -/
structure Circle where
  pos : Vec
  radius : ℝ

/-- `contains(vec2d, vec2d)` (lines 878-882): both coordinates equal within
`EPSILON`. -/
def containsPointPoint (p1 p2 : Vec) : Bool :=
  equal p1.x p2.x && equal p1.y p2.y

/-- `contains(circle, vec2d)` (lines 884-891): squared distance strictly
below the squared radius, or fuzzy-equal to it. -/
def containsCirclePoint (c : Circle) (p : Vec) : Bool :=
  decide ((c.pos - p).mag2 < c.radius * c.radius)
    || equal ((c.pos - p).mag2) (c.radius * c.radius)

/-- `contains(rect, rect)` (lines 899-903):
`r1.pos <= r2.pos && r1.bottom_right() >= r2.bottom_right()`. -/
def containsRectRect (r1 r2 : Rect) : Bool :=
  Vec.le r1.pos r2.pos && Vec.ge r1.bottom_right r2.bottom_right

/-- `contains(rect, circle)` (lines 911-916): the circle's bounding square
`rect(c.pos - c.radius, vec2d(c.radius * 2))` tested by rect-contains-rect. -/
def containsRectCircle (r : Rect) (c : Circle) : Bool :=
  containsRectRect r ⟨c.pos.subScalar c.radius, Vec.broadcast (c.radius * 2)⟩

/-- The bounding-square test in the words of the spec (section 4.2): the
axis-aligned square with corner `pos - radius` and side `2 * radius`,
checked by rect-contains-rect.  Stated separately from `containsRectCircle`
so the two can be compared. -/
def containsRectCircleSpec (r : Rect) (c : Circle) : Bool :=
  containsRectRect r
    ⟨⟨c.pos.x - c.radius, c.pos.y - c.radius⟩, ⟨2 * c.radius, 2 * c.radius⟩⟩

/-- The projection parameter `dp` of `contains(line, vec2d)` (line 929):
`vec.dot(p - l.start) / vec.mag2()` with `vec = l.vector()`. -/
def lineT (l : Line) (p : Vec) : ℝ :=
  l.vector.dot (p - l.start) / l.vector.mag2

/-- `contains(line, vec2d)` (lines 924-938): project `p` on the segment via
`dp = vec.dot(p - start) / vec.mag2()` (here `lineT`), reject if `dp` is
outside `[0, 1]`, otherwise require the distance to the projected point
below `EPSILON`.  Note the division by `vec.mag2()` is performed
unconditionally; real division is total in this model (`x / 0 = 0`), see
`containsLinePointChecked` for the variant that flags the zero denominator. -/
def containsLinePoint (l : Line) (p : Vec) : Bool :=
  if lineT l p < 0 ∨ lineT l p > 1 then false
  else decide (p.dist (l.start.lerp l.endp (lineT l p)) < EPSILON)

/-- Division that reports a zero denominator instead of defaulting. -/
def divChecked (a b : ℝ) : Option ℝ := if b = 0 then none else some (a / b)

/-- `contains(line, vec2d)` (lines 924-938) again, with the one division the
source performs, `vec.dot(p - start) / vec.mag2()`, made explicit through
`divChecked`: the result is `none` exactly when the source divides by a zero
squared magnitude. -/
def containsLinePointChecked (l : Line) (p : Vec) : Option Bool :=
  match divChecked (l.vector.dot (p - l.start)) l.vector.mag2 with
  | none => none
  | some dp =>
      some (if dp < 0 ∨ dp > 1 then false
            else decide (p.dist (l.start.lerp l.endp dp) < EPSILON))

/-- `intersects(vec2d, vec2d)` (lines 966-976): push `p2` if the points are
fuzzy-equal. -/
def intersectsPointPoint (p1 p2 : Vec) (acc : List Vec) : List Vec × Bool :=
  if containsPointPoint p1 p2 then (acc ++ [p2], true) else (acc, false)

/-- `intersects(circle, vec2d)` (lines 996-1006): push `p` if the squared
distance to the centre fuzzy-equals the squared radius. -/
def intersectsCirclePoint (c : Circle) (p : Vec) (acc : List Vec) :
    List Vec × Bool :=
  if equal ((c.pos - p).mag2) (c.radius * c.radius)
  then (acc ++ [p], true) else (acc, false)

/-- `intersects(vec2d, circle)` (lines 990-994): delegates to
`intersects(circle, vec2d)`. -/
def intersectsPointCircle (p : Vec) (c : Circle) (acc : List Vec) :
    List Vec × Bool :=
  intersectsCirclePoint c p acc

/-- `intersects(line, vec2d)` (lines 1129-1139): push `p` if the segment
contains it. -/
def intersectsLinePoint (l : Line) (p : Vec) (acc : List Vec) :
    List Vec × Bool :=
  if containsLinePoint l p then (acc ++ [p], true) else (acc, false)

/-- `intersects(vec2d, line)` (lines 978-982): delegates to
`intersects(line, vec2d)`. -/
def intersectsPointLine (p : Vec) (l : Line) (acc : List Vec) :
    List Vec × Bool :=
  intersectsLinePoint l p acc

/-- The loop of `intersects(rect, vec2d)` (lines 1008-1022) over the listed
side indices: on the first side containing `p`, write the side index, push
`p` and stop with `true`. -/
def intersectsRectPointAux (r : Rect) (p : Vec) (acc : List Vec)
    (s : Option ℕ) : List ℕ → List Vec × Option ℕ × Bool
  | [] => (acc, s, false)
  | i :: rest =>
      if containsLinePoint (r.side i) p then (acc ++ [p], some i, true)
      else intersectsRectPointAux r p acc s rest

/-- `intersects(rect, vec2d)` (lines 1008-1022): test the sides
`0, 1, 2, 3` in order. -/
def intersectsRectPoint (r : Rect) (p : Vec) (acc : List Vec) (s : Option ℕ) :
    List Vec × Option ℕ × Bool :=
  intersectsRectPointAux r p acc s [0, 1, 2, 3]

/-- `intersects(vec2d, rect)` (lines 984-988): delegates to
`intersects(rect, vec2d)`. -/
def intersectsPointRect (p : Vec) (r : Rect) (acc : List Vec) (s : Option ℕ) :
    List Vec × Option ℕ × Bool :=
  intersectsRectPoint r p acc s

/-- Determinant of the 2x2 system of `intersects(line, line)`
(lines 1065-1071): coefficients `a1 = start.y - end.y`,
`b1 = end.x - start.x` of each implicit line equation, and
`det = a1 * b2 - b1 * a2`. -/
def lineDet (l1 l2 : Line) : ℝ :=
  (l1.start.y - l1.endp.y) * (l2.endp.x - l2.start.x)
    - (l1.endp.x - l1.start.x) * (l2.start.y - l2.endp.y)

/-- Solution point of the 2x2 system of `intersects(line, line)`
(lines 1082-1085): `{(b1*c2 - b2*c1) / det, (a2*c1 - a1*c2) / det}` with
`c = start.x * end.y - end.x * start.y` for each line. -/
def linePoint (l1 l2 : Line) : Vec :=
  let a1 := l1.start.y - l1.endp.y
  let b1 := l1.endp.x - l1.start.x
  let a2 := l2.start.y - l2.endp.y
  let b2 := l2.endp.x - l2.start.x
  let c1 := l1.start.x * l1.endp.y - l1.endp.x * l1.start.y
  let c2 := l2.start.x * l2.endp.y - l2.endp.x * l2.start.y
  ⟨(b1 * c2 - b2 * c1) / lineDet l1 l2, (a2 * c1 - a1 * c2) / lineDet l1 l2⟩

/-- `intersects(line, line)` (lines 1059-1095).  When the determinant is
zero the source returns the endpoint-containment disjunction without
touching the vector; otherwise it accepts the solution point exactly when
both segments contain it, in which case `resize(1)` makes the vector exactly
that single point. -/
def intersectsLineLine (l1 l2 : Line) (acc : List Vec) : List Vec × Bool :=
  if lineDet l1 l2 = 0 then
    (acc, containsLinePoint l2 l1.start || containsLinePoint l1 l2.start)
  else
    if containsLinePoint l1 (linePoint l1 l2)
        && containsLinePoint l2 (linePoint l1 l2)
    then ([linePoint l1 l2], true)
    else (acc, false)

/-- Inner loop of `intersects(rect, rect)` (lines 1034-1044): for one side of
`r1`, test line-line intersection against the listed sides of `r2` on a fresh
vector each time and keep the first point of every non-empty result. -/
def intersectsRectRectInner (s1 : Line) (r2 : Rect) : List ℕ → List Vec
  | [] => []
  | j :: rest =>
      match (intersectsLineLine s1 (r2.side j) []).1 with
      | [] => intersectsRectRectInner s1 r2 rest
      | q :: _ => q :: intersectsRectRectInner s1 r2 rest

/-- Outer loop of `intersects(rect, rect)` (lines 1029-1048): concatenate the
inner results side by side and record each of `r1`'s side indices that
produced at least one hit. -/
def intersectsRectRectOuter (r1 r2 : Rect) : List ℕ → List Vec × List ℕ
  | [] => ([], [])
  | i :: rest =>
      let pts := intersectsRectRectInner (r1.side i) r2 [0, 1, 2, 3]
      let rec' := intersectsRectRectOuter r1 r2 rest
      (pts ++ rec'.1,
       (match pts with | [] => rec'.2 | _ :: _ => i :: rec'.2))

/-- `intersects(rect, rect)` (lines 1024-1051): the vector is cleared first,
so the prior contents `acc` are discarded; the side list is appended to. -/
def intersectsRectRect (r1 r2 : Rect) (acc : List Vec) (s : List ℕ) :
    List Vec × List ℕ × Bool :=
  let res := intersectsRectRectOuter r1 r2 [0, 1, 2, 3]
  (res.1, s ++ res.2, !res.1.isEmpty)

/-- Loop of `intersects(rect, line)` (lines 1114-1124): line-line against each
side on a fresh vector, keeping the first point and the side index of every
non-empty result. -/
def intersectsRectLineAux (r : Rect) (l : Line) : List ℕ → List Vec × List ℕ
  | [] => ([], [])
  | i :: rest =>
      let rec' := intersectsRectLineAux r l rest
      match (intersectsLineLine l (r.side i) []).1 with
      | [] => rec'
      | q :: _ => (q :: rec'.1, i :: rec'.2)

/-- `intersects(rect, line)` (lines 1109-1127): the vector is cleared first. -/
def intersectsRectLine (r : Rect) (l : Line) (acc : List Vec) (s : List ℕ) :
    List Vec × List ℕ × Bool :=
  let res := intersectsRectLineAux r l [0, 1, 2, 3]
  (res.1, s ++ res.2, !res.1.isEmpty)

/-- `intersects(line, rect)` (lines 1097-1101): delegates to
`intersects(rect, line)`. -/
def intersectsLineRect (l : Line) (r : Rect) (acc : List Vec) (s : List ℕ) :
    List Vec × List ℕ × Bool :=
  intersectsRectLine r l acc s

/-- `uLine` of `intersects(circle, line)` (line 1190):
`d.dot(c.pos - l.start) / d.mag2()`. -/
def closestT (c : Circle) (l : Line) : ℝ :=
  l.vector.dot (c.pos - l.start) / l.vector.mag2

/-- `closestPointToLine` of `intersects(circle, line)` (line 1191):
`l.start + uLine * d`. -/
def closestPointToLine (c : Circle) (l : Line) : Vec :=
  l.start + Vec.smul (closestT c l) l.vector

/-- `distToLine` of `intersects(circle, line)` (line 1192): the squared
distance `(c.pos - closestPointToLine).mag2()`. -/
def distToLine (c : Circle) (l : Line) : ℝ :=
  (c.pos - closestPointToLine c l).mag2

/-- `length` of `intersects(circle, line)` (line 1202):
`sqrt(c.radius * c.radius - distToLine)`. -/
def chordLen (c : Circle) (l : Line) : ℝ :=
  Real.sqrt (c.radius * c.radius - distToLine c l)

/-- `p1` of `intersects(circle, line)` (line 1203):
`closestPointToLine + d.norm() * length`. -/
def chordP1 (c : Circle) (l : Line) : Vec :=
  closestPointToLine c l + Vec.scale l.vector.norm (chordLen c l)

/-- `p2` of `intersects(circle, line)` (line 1204):
`closestPointToLine - d.norm() * length`. -/
def chordP2 (c : Circle) (l : Line) : Vec :=
  closestPointToLine c l - Vec.scale l.vector.norm (chordLen c l)

/-- `intersects(circle, line)` (lines 1175-1210).  The vector is cleared;
then `if (utils::equal(dist, c.radius)) return false;` with `dist` the
perpendicular distance `l.dist(c.pos)`; then the squared-tangency check and
the chord candidates, each accepted only if the segment contains it. -/
def intersectsCircleLine (c : Circle) (l : Line) (acc : List Vec) :
    List Vec × Bool :=
  if equal (l.dist c.pos) c.radius then ([], false)
  else if equal (distToLine c l) (c.radius * c.radius) then
    ([closestPointToLine c l], true)
  else
    let pts :=
      (if containsLinePoint l (chordP1 c l) then [chordP1 c l] else [])
        ++ (if containsLinePoint l (chordP2 c l) then [chordP2 c l] else [])
    (pts, !pts.isEmpty)

/-- `intersects(line, circle)` (lines 1103-1107): delegates to
`intersects(circle, line)`. -/
def intersectsLineCircle (l : Line) (c : Circle) (acc : List Vec) :
    List Vec × Bool :=
  intersectsCircleLine c l acc

/-- `dist` of `intersects(circle, circle)` (line 1149): the centre distance. -/
def circleDist (c1 c2 : Circle) : ℝ := c1.pos.dist c2.pos

/-- `adj` of `intersects(circle, circle)` (line 1150):
`(sqr_r1 - sqr_r2 + dist * dist) / (2 * dist)`. -/
def circleAdj (c1 c2 : Circle) : ℝ :=
  (c1.radius * c1.radius - c2.radius * c2.radius
      + circleDist c1 c2 * circleDist c1 c2) / (2 * circleDist c1 c2)

/-- `sqr_hyp` of `intersects(circle, circle)` (line 1151):
`sqr_r1 - adj * adj`. -/
def circleSqrHyp (c1 c2 : Circle) : ℝ :=
  c1.radius * c1.radius - circleAdj c1 c2 * circleAdj c1 c2

/-- `hyp` of `intersects(circle, circle)` (line 1156): `sqrt(sqr_hyp)`. -/
def circleHyp (c1 c2 : Circle) : ℝ := Real.sqrt (circleSqrHyp c1 c2)

/-- `p` of `intersects(circle, circle)` (line 1158):
`(c2.pos - c1.pos) * (adj / dist) + c1.pos`. -/
def circleP (c1 c2 : Circle) : Vec :=
  Vec.scale (c2.pos - c1.pos) (circleAdj c1 c2 / circleDist c1 c2) + c1.pos

/-- `inter1` of `intersects(circle, circle)` (lines 1161-1162). -/
def circleInter1 (c1 c2 : Circle) : Vec :=
  ⟨(circleP c1 c2).x + circleHyp c1 c2 * (c2.pos.y - c1.pos.y) / circleDist c1 c2,
   (circleP c1 c2).y - circleHyp c1 c2 * (c2.pos.x - c1.pos.x) / circleDist c1 c2⟩

/-- `inter2` of `intersects(circle, circle)` (lines 1164-1165). -/
def circleInter2 (c1 c2 : Circle) : Vec :=
  ⟨(circleP c1 c2).x - circleHyp c1 c2 * (c2.pos.y - c1.pos.y) / circleDist c1 c2,
   (circleP c1 c2).y + circleHyp c1 c2 * (c2.pos.x - c1.pos.x) / circleDist c1 c2⟩

/-- `intersects(circle, circle)` (lines 1141-1173): the vector is cleared;
`inter1` is always pushed once `sqr_hyp >= 0`, and `inter2` only when the two
candidates are not fuzzy-equal (the tangency collapse). -/
def intersectsCircleCircle (c1 c2 : Circle) (acc : List Vec) :
    List Vec × Bool :=
  if circleSqrHyp c1 c2 < 0 then ([], false)
  else
    (circleInter1 c1 c2
        :: (if !vequal (circleInter1 c1 c2) (circleInter2 c1 c2)
            then [circleInter2 c1 c2] else []),
     true)

/-- Loop of `intersects(circle, rect)` (lines 1217-1224): the points of
circle-line intersection with each side in order.  The source calls a
collection-returning `intersects(c, r.side(i))` from the header's earlier
API revision; it is modelled as the points produced by the present overload
on a fresh vector.  The side index is pushed once per point. -/
def intersectsCircleRectAux (c : Circle) (r : Rect) : List ℕ → List Vec × List ℕ
  | [] => ([], [])
  | i :: rest =>
      let pts := (intersectsCircleLine c (r.side i) []).1
      let rec' := intersectsCircleRectAux c r rest
      (pts ++ rec'.1, pts.map (fun _ => i) ++ rec'.2)

/-- `intersects(circle, rect)` (lines 1212-1227): the vector is cleared. -/
def intersectsCircleRect (c : Circle) (r : Rect) (acc : List Vec) (s : List ℕ) :
    List Vec × List ℕ × Bool :=
  let res := intersectsCircleRectAux c r [0, 1, 2, 3]
  (res.1, s ++ res.2, !res.1.isEmpty)

/-- `intersects(rect, circle)` (lines 1053-1057): delegates to
`intersects(circle, rect)`. -/
def intersectsRectCircle (r : Rect) (c : Circle) (acc : List Vec) (s : List ℕ) :
    List Vec × List ℕ × Bool :=
  intersectsCircleRect c r acc s

/-! ### Helper lemmas -/

@[simp] theorem Vec.add_x (v w : Vec) : (v + w).x = v.x + w.x := rfl

@[simp] theorem Vec.add_y (v w : Vec) : (v + w).y = v.y + w.y := rfl

@[simp] theorem Vec.sub_x (v w : Vec) : (v - w).x = v.x - w.x := rfl

@[simp] theorem Vec.sub_y (v w : Vec) : (v - w).y = v.y - w.y := rfl

theorem Vec.add_def (v w : Vec) : v + w = ⟨v.x + w.x, v.y + w.y⟩ := rfl

theorem Vec.sub_def (v w : Vec) : v - w = ⟨v.x - w.x, v.y - w.y⟩ := rfl

theorem not_isEmpty_iff (xs : List Vec) : ((!xs.isEmpty) = true) ↔ xs ≠ [] := by
  cases xs <;> simp

theorem sqrt_eq_of {a b : ℝ} (h : 0 ≤ a) (hab : a * a = b) :
    Real.sqrt b = a := by
  rw [← hab]; exact Real.sqrt_mul_self h

theorem dist_eval {v w : Vec} {r : ℝ} (h : 0 ≤ r)
    (hsq : r * r = (v.x - w.x) * (v.x - w.x) + (v.y - w.y) * (v.y - w.y)) :
    v.dist w = r := by
  rw [Vec.dist, Vec.mag, Vec.sub_x, Vec.sub_y]
  exact sqrt_eq_of h hsq

theorem equal_true {a b : ℝ} (h : |a - b| ≤ EPSILON) : equal a b = true := by
  simp [equal, h]

theorem equal_self (a : ℝ) : equal a a = true := by
  apply equal_true
  simp [EPSILON]
  norm_num

theorem equal_false {a b : ℝ} (h : ¬|a - b| ≤ EPSILON) : equal a b = false := by
  simp [equal, h]

/-- The projection parameter `dp` of `contains(line, vec2d)` (line 929),
written out componentwise for concrete evaluation. -/
theorem lineT_eval (l : Line) (p : Vec) :
    lineT l p =
      ((l.endp.x - l.start.x) * (p.x - l.start.x)
          + (l.endp.y - l.start.y) * (p.y - l.start.y))
        / ((l.endp.x - l.start.x) * (l.endp.x - l.start.x)
          + (l.endp.y - l.start.y) * (l.endp.y - l.start.y)) := rfl

theorem containsLinePoint_true {l : Line} {p : Vec} {t : ℝ}
    (ht : lineT l p = t) (h0 : 0 ≤ t) (h1 : t ≤ 1)
    (hd : p.dist (l.start.lerp l.endp t) < EPSILON) :
    containsLinePoint l p = true := by
  unfold containsLinePoint
  rw [ht, if_neg (by push_neg; exact ⟨h0, h1⟩)]
  simp [hd]

theorem containsLinePoint_false_far {l : Line} {p : Vec} {t : ℝ}
    (ht : lineT l p = t) (h0 : 0 ≤ t) (h1 : t ≤ 1)
    (hd : ¬p.dist (l.start.lerp l.endp t) < EPSILON) :
    containsLinePoint l p = false := by
  unfold containsLinePoint
  rw [ht, if_neg (by push_neg; exact ⟨h0, h1⟩)]
  simp [hd]

theorem intersectsRectPointAux_acc (r : Rect) (p : Vec) (acc : List Vec)
    (s : Option ℕ) (idxs : List ℕ) :
    (intersectsRectPointAux r p acc s idxs).1
        = acc ++ (intersectsRectPointAux r p [] s idxs).1
      ∧ (intersectsRectPointAux r p acc s idxs).2
        = (intersectsRectPointAux r p [] s idxs).2 := by
  induction idxs with
  | nil => simp [intersectsRectPointAux]
  | cons i rest ih =>
      by_cases h : containsLinePoint (r.side i) p = true <;>
        simp [intersectsRectPointAux, h, ih]

theorem intersectsRectPointAux_bool (r : Rect) (p : Vec) (s : Option ℕ)
    (idxs : List ℕ) :
    ((intersectsRectPointAux r p [] s idxs).2.2 = true
      ↔ (intersectsRectPointAux r p [] s idxs).1 ≠ []) := by
  induction idxs with
  | nil => simp [intersectsRectPointAux]
  | cons i rest ih =>
      by_cases h : containsLinePoint (r.side i) p = true <;>
        simp [intersectsRectPointAux, h, ih]

/-! ### The claims -/

/-- Claim C5: each mirrored `intersects` overload delegates to its canonical
direction by swapping arguments, so the two calls return identical results
(hence equal point sets and the same boolean): point-line, point-rect,
point-circle, rect-circle, line-rect and line-circle. -/
theorem c5_delegation_symmetry :
    (∀ (p : Vec) (l : Line) (acc : List Vec),
        intersectsPointLine p l acc = intersectsLinePoint l p acc)
  ∧ (∀ (p : Vec) (r : Rect) (acc : List Vec) (s : Option ℕ),
        intersectsPointRect p r acc s = intersectsRectPoint r p acc s)
  ∧ (∀ (p : Vec) (c : Circle) (acc : List Vec),
        intersectsPointCircle p c acc = intersectsCirclePoint c p acc)
  ∧ (∀ (r : Rect) (c : Circle) (acc : List Vec) (s : List ℕ),
        intersectsRectCircle r c acc s = intersectsCircleRect c r acc s)
  ∧ (∀ (l : Line) (r : Rect) (acc : List Vec) (s : List ℕ),
        intersectsLineRect l r acc s = intersectsRectLine r l acc s)
  ∧ (∀ (l : Line) (c : Circle) (acc : List Vec),
        intersectsLineCircle l c acc = intersectsCircleLine c l acc) :=
  ⟨fun _ _ _ => rfl, fun _ _ _ _ => rfl, fun _ _ _ => rfl,
   fun _ _ _ _ => rfl, fun _ _ _ _ => rfl, fun _ _ _ => rfl⟩

/-- Claim C8: for every rect, including zero-size rects, `side(i)` for
`i = 0, 1, 2, 3` yields LEFT, TOP, RIGHT, BOTTOM in that fixed order with
the endpoint pairing LEFT = top_left to bottom_left, TOP = top_left to
top_right, RIGHT = top_right to bottom_right, BOTTOM = bottom_left to
bottom_right. -/
theorem c8_side_order :
    ∀ r : Rect,
      r.side 0 = ⟨r.top_left, r.bottom_left⟩
      ∧ r.side 1 = ⟨r.top_left, r.top_right⟩
      ∧ r.side 2 = ⟨r.top_right, r.bottom_right⟩
      ∧ r.side 3 = ⟨r.bottom_left, r.bottom_right⟩ :=
  fun _ => ⟨rfl, rfl, rfl, rfl⟩

/-- Claim C10: the circle-circle, circle-line, circle-rect, rect-rect and
rect-line overloads clear the output vector, so their result is independent
of the vector's prior contents; the point-based overloads (point-point,
rect-point, line-point, circle-point) append, so the prior contents survive
as a prefix and the returned boolean can disagree with the vector's
non-emptiness, as the final concrete run shows. -/
theorem c10_clear_vs_append :
    (∀ (c1 c2 : Circle) (acc : List Vec),
        intersectsCircleCircle c1 c2 acc = intersectsCircleCircle c1 c2 [])
  ∧ (∀ (c : Circle) (l : Line) (acc : List Vec),
        intersectsCircleLine c l acc = intersectsCircleLine c l [])
  ∧ (∀ (c : Circle) (r : Rect) (acc : List Vec) (s : List ℕ),
        intersectsCircleRect c r acc s = intersectsCircleRect c r [] s)
  ∧ (∀ (r1 r2 : Rect) (acc : List Vec) (s : List ℕ),
        intersectsRectRect r1 r2 acc s = intersectsRectRect r1 r2 [] s)
  ∧ (∀ (r : Rect) (l : Line) (acc : List Vec) (s : List ℕ),
        intersectsRectLine r l acc s = intersectsRectLine r l [] s)
  ∧ (∀ (p1 p2 : Vec) (acc : List Vec),
        (intersectsPointPoint p1 p2 acc).1
            = acc ++ (intersectsPointPoint p1 p2 []).1
          ∧ (intersectsPointPoint p1 p2 acc).2
            = (intersectsPointPoint p1 p2 []).2)
  ∧ (∀ (r : Rect) (p : Vec) (acc : List Vec) (s : Option ℕ),
        (intersectsRectPoint r p acc s).1
            = acc ++ (intersectsRectPoint r p [] s).1
          ∧ (intersectsRectPoint r p acc s).2
            = (intersectsRectPoint r p [] s).2)
  ∧ (∀ (l : Line) (p : Vec) (acc : List Vec),
        (intersectsLinePoint l p acc).1
            = acc ++ (intersectsLinePoint l p []).1
          ∧ (intersectsLinePoint l p acc).2
            = (intersectsLinePoint l p []).2)
  ∧ (∀ (c : Circle) (p : Vec) (acc : List Vec),
        (intersectsCirclePoint c p acc).1
            = acc ++ (intersectsCirclePoint c p []).1
          ∧ (intersectsCirclePoint c p acc).2
            = (intersectsCirclePoint c p []).2)
  ∧ intersectsCirclePoint ⟨⟨0, 0⟩, 5⟩ ⟨0, 0⟩ [⟨1, 1⟩] = ([⟨1, 1⟩], false) := by
  refine ⟨fun _ _ _ => rfl, fun _ _ _ => rfl, fun _ _ _ _ => rfl,
    fun _ _ _ _ => rfl, fun _ _ _ _ => rfl, ?_, ?_, ?_, ?_, ?_⟩
  · intro p1 p2 acc
    by_cases h : containsPointPoint p1 p2 = true <;>
      simp [intersectsPointPoint, h]
  · intro r p acc s
    exact intersectsRectPointAux_acc r p acc s [0, 1, 2, 3]
  · intro l p acc
    by_cases h : containsLinePoint l p = true <;>
      simp [intersectsLinePoint, h]
  · intro c p acc
    by_cases h : equal ((c.pos - p).mag2) (c.radius * c.radius) = true <;>
      simp [intersectsCirclePoint, h]
  · have h : equal (((⟨⟨0, 0⟩, 5⟩ : Circle).pos - ⟨0, 0⟩).mag2)
        ((5 : ℝ) * 5) = false := by
      apply equal_false
      simp [Vec.mag2, EPSILON, abs_le]
      norm_num
    simp [intersectsCirclePoint, h]

/-- Claim C7: `contains(rect, circle)` coincides with the bounding-square
test (rect-contains-rect on the square with corner `pos - radius` and side
`2 * radius`); concretely, the rect at (0,0) of size (4,4) contains the
circle centred (2,2) of radius 1 but not the one of radius 3. -/
theorem c7_rect_contains_circle_bounding_square :
    (∀ (r : Rect) (c : Circle),
        containsRectCircle r c = containsRectCircleSpec r c)
  ∧ containsRectCircle ⟨⟨0, 0⟩, ⟨4, 4⟩⟩ ⟨⟨2, 2⟩, 1⟩ = true
  ∧ containsRectCircle ⟨⟨0, 0⟩, ⟨4, 4⟩⟩ ⟨⟨2, 2⟩, 3⟩ = false := by
  refine ⟨?_, ?_, ?_⟩
  · intro r c
    simp only [containsRectCircle, containsRectCircleSpec, Vec.subScalar,
      Vec.broadcast]
    rw [mul_comm c.radius 2]
  · simp [containsRectCircle, containsRectRect, Vec.le, Vec.ge,
      Rect.bottom_right, Vec.subScalar, Vec.broadcast]
    norm_num
  · simp [containsRectCircle, containsRectRect, Vec.le, Vec.ge,
      Rect.bottom_right, Vec.subScalar, Vec.broadcast]
    norm_num

/-- Claim C1 (counterexample): the point at the centre of the circle of
radius 5 is contained in it, yet `intersects(circle, vec2d)` returns false
with no intersection point, because that overload only fires when the
squared distance to the centre fuzzy-equals the squared radius.  This
refutes "contains(A, B) implies intersects(A, B) non-empty" at the
circle-point pair named by the claim. -/
theorem c1_contains_without_intersection :
    containsCirclePoint ⟨⟨0, 0⟩, 5⟩ ⟨0, 0⟩ = true
  ∧ intersectsCirclePoint ⟨⟨0, 0⟩, 5⟩ ⟨0, 0⟩ [] = ([], false) := by
  constructor
  · simp [containsCirclePoint, Vec.mag2]
  · have h : equal (((⟨⟨0, 0⟩, 5⟩ : Circle).pos - ⟨0, 0⟩).mag2)
        ((5 : ℝ) * 5) = false := by
      apply equal_false
      simp [Vec.mag2, EPSILON, abs_le]
      norm_num
    simp [intersectsCirclePoint, h]

/-- Claim C1 (amended): for the circle-point pair, containment does not
imply a non-empty intersection (interior points are contained but produce
no intersection point); the implication that does hold is the converse:
whenever `intersects(circle, vec2d)` returns true, `contains(circle, vec2d)`
holds, since a point whose squared centre distance fuzzy-equals the squared
radius satisfies the containment disjunction. -/
theorem c1_intersects_implies_contains :
    ∀ (c : Circle) (p : Vec) (acc : List Vec),
      (intersectsCirclePoint c p acc).2 = true →
        containsCirclePoint c p = true := by
  intro c p acc h
  by_cases he : equal ((c.pos - p).mag2) (c.radius * c.radius) = true
  · simp [containsCirclePoint, he]
  · simp [intersectsCirclePoint, he] at h

/-- Witness for `c1_intersects_implies_contains`: the boundary point (5, 0)
of the circle centred (0, 0) with radius 5. -/
theorem c1_intersects_implies_contains_witness :
    containsCirclePoint ⟨⟨0, 0⟩, 5⟩ ⟨5, 0⟩ = true :=
  c1_intersects_implies_contains ⟨⟨0, 0⟩, 5⟩ ⟨5, 0⟩ []
    (by
      have h : equal (((⟨⟨0, 0⟩, 5⟩ : Circle).pos - ⟨5, 0⟩).mag2)
          ((5 : ℝ) * 5) = true := by
        apply equal_true
        simp [Vec.mag2, EPSILON, abs_le]
        norm_num
      simp [intersectsCirclePoint, h])

/-- Claim C9 (counterexample): for the zero-length segment at the origin the
direction vector's squared magnitude is 0, and `contains(line, vec2d)`
nevertheless performs its projection division by that squared magnitude:
the division-checked model of lines 924-938 reports the zero denominator.
The claimed guard exists only in `line::dist`, not in
`contains(line, vec2d)`. -/
theorem c9_zero_length_division :
    (⟨⟨0, 0⟩, ⟨0, 0⟩⟩ : Line).vector.mag2 = 0
  ∧ containsLinePointChecked ⟨⟨0, 0⟩, ⟨0, 0⟩⟩ ⟨0, 0⟩ = none := by
  have h : (⟨⟨0, 0⟩, ⟨0, 0⟩⟩ : Line).vector.mag2 = 0 := by
    simp [Line.vector, Vec.mag2]
  exact ⟨h, by simp [containsLinePointChecked, divChecked, h]⟩

/-- Claim C9 (amended): `line::dist` does detect the degenerate segment
(`a == 0 && b == 0`) and falls back to the point-to-point distance from
`start`; `contains(line, vec2d)` has no such guard and divides by
`vec.mag2()` unconditionally, which is safe exactly when that squared
magnitude is non-zero, where the checked model agrees with the unchecked
one. -/
theorem c9_degenerate_dist_fallback :
    (∀ (l : Line) (v : Vec), l.start = l.endp → l.dist v = v.dist l.start)
  ∧ (∀ (l : Line) (p : Vec), l.vector.mag2 ≠ 0 →
      containsLinePointChecked l p = some (containsLinePoint l p)) := by
  constructor
  · intro l v h
    simp only [Line.dist]
    rw [if_pos ⟨by rw [h, sub_self], by rw [h, sub_self]⟩]
  · intro l p h
    simp [containsLinePointChecked, divChecked, containsLinePoint, lineT, h]

/-- Witness for `c9_degenerate_dist_fallback`: the degenerate segment at
(2, 3) and the non-degenerate segment from (0, 0) to (10, 0). -/
theorem c9_degenerate_dist_fallback_witness :
    (⟨⟨2, 3⟩, ⟨2, 3⟩⟩ : Line).dist ⟨0, 0⟩ = Vec.dist ⟨0, 0⟩ ⟨2, 3⟩
  ∧ containsLinePointChecked ⟨⟨0, 0⟩, ⟨10, 0⟩⟩ ⟨0, 0⟩
      = some (containsLinePoint ⟨⟨0, 0⟩, ⟨10, 0⟩⟩ ⟨0, 0⟩) :=
  ⟨c9_degenerate_dist_fallback.1 ⟨⟨2, 3⟩, ⟨2, 3⟩⟩ ⟨0, 0⟩ rfl,
   c9_degenerate_dist_fallback.2 ⟨⟨0, 0⟩, ⟨10, 0⟩⟩ ⟨0, 0⟩
     (by simp [Line.vector, Vec.mag2])⟩

/-- Claim C2 (counterexample): two identical segments from (0, 0) to
(10, 0) have zero determinant; the collinear fallback of
`intersects(line, line)` then returns true from the endpoint-containment
check while pushing nothing, so the boolean is true with an empty output
sequence, refuting "the boolean is true iff the output sequence is
non-empty" precisely in the case the claim singles out. -/
theorem c2_collinear_true_with_empty_output :
    intersectsLineLine ⟨⟨0, 0⟩, ⟨10, 0⟩⟩ ⟨⟨0, 0⟩, ⟨10, 0⟩⟩ [] = ([], true) := by
  have hdet : lineDet ⟨⟨0, 0⟩, ⟨10, 0⟩⟩ ⟨⟨0, 0⟩, ⟨10, 0⟩⟩ = 0 := by
    simp [lineDet]
  have hc : containsLinePoint ⟨⟨0, 0⟩, ⟨10, 0⟩⟩ ⟨0, 0⟩ = true := by
    apply containsLinePoint_true (t := 0)
    · rw [lineT_eval]; norm_num
    · norm_num
    · norm_num
    · have hl : Vec.lerp ⟨0, 0⟩ ⟨10, 0⟩ 0 = (⟨0, 0⟩ : Vec) := by
        simp [Vec.lerp]
      rw [hl,
        show Vec.dist ⟨0, 0⟩ (⟨0, 0⟩ : Vec) = 0 from
          dist_eval (by norm_num) (by norm_num),
        EPSILON]
      norm_num
  unfold intersectsLineLine
  rw [if_pos hdet]
  simp [hc]

/-- Claim C2 (amended): every `intersects` overload returns true exactly
when its output vector is non-empty after the call -- for the clearing
overloads with any prior contents, for the appending point-based overloads
with an initially empty vector -- except the line-line overload in the
zero-determinant case, which returns the endpoint-containment boolean
without appending any point (see the counterexample); for line-line the
contract holds whenever the determinant is non-zero. -/
theorem c2_bool_matches_nonempty :
    (∀ p1 p2 : Vec,
        ((intersectsPointPoint p1 p2 []).2 = true
          ↔ (intersectsPointPoint p1 p2 []).1 ≠ []))
  ∧ (∀ (c : Circle) (p : Vec),
        ((intersectsCirclePoint c p []).2 = true
          ↔ (intersectsCirclePoint c p []).1 ≠ []))
  ∧ (∀ (l : Line) (p : Vec),
        ((intersectsLinePoint l p []).2 = true
          ↔ (intersectsLinePoint l p []).1 ≠ []))
  ∧ (∀ (r : Rect) (p : Vec) (s : Option ℕ),
        ((intersectsRectPoint r p [] s).2.2 = true
          ↔ (intersectsRectPoint r p [] s).1 ≠ []))
  ∧ (∀ l1 l2 : Line, lineDet l1 l2 ≠ 0 →
        ((intersectsLineLine l1 l2 []).2 = true
          ↔ (intersectsLineLine l1 l2 []).1 ≠ []))
  ∧ (∀ (r1 r2 : Rect) (acc : List Vec) (s : List ℕ),
        ((intersectsRectRect r1 r2 acc s).2.2 = true
          ↔ (intersectsRectRect r1 r2 acc s).1 ≠ []))
  ∧ (∀ (r : Rect) (l : Line) (acc : List Vec) (s : List ℕ),
        ((intersectsRectLine r l acc s).2.2 = true
          ↔ (intersectsRectLine r l acc s).1 ≠ []))
  ∧ (∀ (c : Circle) (l : Line) (acc : List Vec),
        ((intersectsCircleLine c l acc).2 = true
          ↔ (intersectsCircleLine c l acc).1 ≠ []))
  ∧ (∀ (c1 c2 : Circle) (acc : List Vec),
        ((intersectsCircleCircle c1 c2 acc).2 = true
          ↔ (intersectsCircleCircle c1 c2 acc).1 ≠ []))
  ∧ (∀ (c : Circle) (r : Rect) (acc : List Vec) (s : List ℕ),
        ((intersectsCircleRect c r acc s).2.2 = true
          ↔ (intersectsCircleRect c r acc s).1 ≠ [])) := by
  refine ⟨?_, ?_, ?_, ?_, ?_, ?_, ?_, ?_, ?_, ?_⟩
  · intro p1 p2
    by_cases h : containsPointPoint p1 p2 = true <;>
      simp [intersectsPointPoint, h]
  · intro c p
    by_cases h : equal ((c.pos - p).mag2) (c.radius * c.radius) = true <;>
      simp [intersectsCirclePoint, h]
  · intro l p
    by_cases h : containsLinePoint l p = true <;>
      simp [intersectsLinePoint, h]
  · intro r p s
    exact intersectsRectPointAux_bool r p s [0, 1, 2, 3]
  · intro l1 l2 h
    unfold intersectsLineLine
    rw [if_neg h]
    by_cases hb : (containsLinePoint l1 (linePoint l1 l2)
        && containsLinePoint l2 (linePoint l1 l2)) = true <;>
      simp [hb]
  · intro r1 r2 acc s
    simp only [intersectsRectRect]
    exact not_isEmpty_iff _
  · intro r l acc s
    simp only [intersectsRectLine]
    exact not_isEmpty_iff _
  · intro c l acc
    by_cases h1 : equal (l.dist c.pos) c.radius = true
    · simp [intersectsCircleLine, h1]
    · by_cases h2 : equal (distToLine c l) (c.radius * c.radius) = true
      · simp [intersectsCircleLine, h1, h2]
      · simp only [intersectsCircleLine, if_neg h1, if_neg h2]
        exact not_isEmpty_iff _
  · intro c1 c2 acc
    by_cases h : circleSqrHyp c1 c2 < 0 <;>
      simp [intersectsCircleCircle, h]
  · intro c r acc s
    simp only [intersectsCircleRect]
    exact not_isEmpty_iff _

/-- Witness for `c2_bool_matches_nonempty`, discharging the non-zero
determinant hypothesis of the line-line part at the segments from (0, 0) to
(10, 0) and from (5, -5) to (5, 5), whose determinant is 100. -/
theorem c2_bool_matches_nonempty_witness :
    ((intersectsLineLine ⟨⟨0, 0⟩, ⟨10, 0⟩⟩ ⟨⟨5, -5⟩, ⟨5, 5⟩⟩ []).2 = true
      ↔ (intersectsLineLine ⟨⟨0, 0⟩, ⟨10, 0⟩⟩ ⟨⟨5, -5⟩, ⟨5, 5⟩⟩ []).1 ≠ []) :=
  c2_bool_matches_nonempty.2.2.2.2.1 ⟨⟨0, 0⟩, ⟨10, 0⟩⟩ ⟨⟨5, -5⟩, ⟨5, 5⟩⟩
    (by norm_num [lineDet])

/-- Claim C4: with a non-zero determinant, `intersects(line, line)` returns
the unique solution of the 2x2 system exactly when both segments contain
it; the segments (0,0)-(10,0) and (5,-5)-(5,5) intersect in the single
point (5,0), and the parallel non-collinear segments (0,0)-(10,0) and
(0,5)-(10,5) produce the empty sequence. -/
theorem c4_line_line_solution :
    (∀ (l1 l2 : Line) (acc : List Vec), lineDet l1 l2 ≠ 0 →
        (intersectsLineLine l1 l2 acc = ([linePoint l1 l2], true)
          ↔ (containsLinePoint l1 (linePoint l1 l2) = true
              ∧ containsLinePoint l2 (linePoint l1 l2) = true)))
  ∧ intersectsLineLine ⟨⟨0, 0⟩, ⟨10, 0⟩⟩ ⟨⟨5, -5⟩, ⟨5, 5⟩⟩ []
      = ([⟨5, 0⟩], true)
  ∧ intersectsLineLine ⟨⟨0, 0⟩, ⟨10, 0⟩⟩ ⟨⟨0, 5⟩, ⟨10, 5⟩⟩ []
      = ([], false) := by
  refine ⟨?_, ?_, ?_⟩
  · intro l1 l2 acc h
    unfold intersectsLineLine
    rw [if_neg h]
    by_cases hb : (containsLinePoint l1 (linePoint l1 l2)
        && containsLinePoint l2 (linePoint l1 l2)) = true
    · rw [if_pos hb]
      simp [Bool.and_eq_true] at hb
      simp [hb]
    · rw [if_neg hb]
      constructor
      · intro he
        simp at he
      · intro hab
        exact absurd (by simp [Bool.and_eq_true, hab.1, hab.2]) hb
  · have hdet : lineDet ⟨⟨0, 0⟩, ⟨10, 0⟩⟩ ⟨⟨5, -5⟩, ⟨5, 5⟩⟩ ≠ 0 := by
      norm_num [lineDet]
    have hpt : linePoint ⟨⟨0, 0⟩, ⟨10, 0⟩⟩ ⟨⟨5, -5⟩, ⟨5, 5⟩⟩ = ⟨5, 0⟩ := by
      simp [linePoint, lineDet]
      norm_num
    have hc1 : containsLinePoint ⟨⟨0, 0⟩, ⟨10, 0⟩⟩ ⟨5, 0⟩ = true := by
      apply containsLinePoint_true (t := 1 / 2)
      · rw [lineT_eval]; norm_num
      · norm_num
      · norm_num
      · have hl : Vec.lerp ⟨0, 0⟩ ⟨10, 0⟩ (1 / 2) = (⟨5, 0⟩ : Vec) := by
          simp [Vec.lerp]
          norm_num
        rw [hl,
          show Vec.dist ⟨5, 0⟩ (⟨5, 0⟩ : Vec) = 0 from
            dist_eval (by norm_num) (by norm_num),
          EPSILON]
        norm_num
    have hc2 : containsLinePoint ⟨⟨5, -5⟩, ⟨5, 5⟩⟩ ⟨5, 0⟩ = true := by
      apply containsLinePoint_true (t := 1 / 2)
      · rw [lineT_eval]; norm_num
      · norm_num
      · norm_num
      · have hl : Vec.lerp ⟨5, -5⟩ ⟨5, 5⟩ (1 / 2) = (⟨5, 0⟩ : Vec) := by
          simp [Vec.lerp]
          norm_num
        rw [hl,
          show Vec.dist ⟨5, 0⟩ (⟨5, 0⟩ : Vec) = 0 from
            dist_eval (by norm_num) (by norm_num),
          EPSILON]
        norm_num
    unfold intersectsLineLine
    rw [if_neg hdet, hpt]
    simp [hc1, hc2]
  · have hdet : lineDet ⟨⟨0, 0⟩, ⟨10, 0⟩⟩ ⟨⟨0, 5⟩, ⟨10, 5⟩⟩ = 0 := by
      norm_num [lineDet]
    have hf1 : containsLinePoint ⟨⟨0, 5⟩, ⟨10, 5⟩⟩ ⟨0, 0⟩ = false := by
      apply containsLinePoint_false_far (t := 0)
      · rw [lineT_eval]; norm_num
      · norm_num
      · norm_num
      · have hl : Vec.lerp ⟨0, 5⟩ ⟨10, 5⟩ 0 = (⟨0, 5⟩ : Vec) := by
          simp [Vec.lerp]
        rw [hl,
          show Vec.dist ⟨0, 0⟩ (⟨0, 5⟩ : Vec) = 5 from
            dist_eval (by norm_num) (by norm_num),
          EPSILON]
        norm_num
    have hf2 : containsLinePoint ⟨⟨0, 0⟩, ⟨10, 0⟩⟩ ⟨0, 5⟩ = false := by
      apply containsLinePoint_false_far (t := 0)
      · rw [lineT_eval]; norm_num
      · norm_num
      · norm_num
      · have hl : Vec.lerp ⟨0, 0⟩ ⟨10, 0⟩ 0 = (⟨0, 0⟩ : Vec) := by
          simp [Vec.lerp]
        rw [hl,
          show Vec.dist ⟨0, 5⟩ (⟨0, 0⟩ : Vec) = 5 from
            dist_eval (by norm_num) (by norm_num),
          EPSILON]
        norm_num
    unfold intersectsLineLine
    rw [if_pos hdet]
    simp [hf1, hf2]

/-- Witness for `c4_line_line_solution`, discharging the non-zero
determinant hypothesis of its first part at the same crossing segments. -/
theorem c4_line_line_solution_witness :
    (intersectsLineLine ⟨⟨0, 0⟩, ⟨10, 0⟩⟩ ⟨⟨5, -5⟩, ⟨5, 5⟩⟩ []
        = ([linePoint ⟨⟨0, 0⟩, ⟨10, 0⟩⟩ ⟨⟨5, -5⟩, ⟨5, 5⟩⟩], true)
      ↔ (containsLinePoint ⟨⟨0, 0⟩, ⟨10, 0⟩⟩
            (linePoint ⟨⟨0, 0⟩, ⟨10, 0⟩⟩ ⟨⟨5, -5⟩, ⟨5, 5⟩⟩) = true
          ∧ containsLinePoint ⟨⟨5, -5⟩, ⟨5, 5⟩⟩
            (linePoint ⟨⟨0, 0⟩, ⟨10, 0⟩⟩ ⟨⟨5, -5⟩, ⟨5, 5⟩⟩) = true)) :=
  c4_line_line_solution.1 ⟨⟨0, 0⟩, ⟨10, 0⟩⟩ ⟨⟨5, -5⟩, ⟨5, 5⟩⟩ []
    (by norm_num [lineDet])

/-- Claim C6: for externally tangent circles with distinct centres (centre
distance equal to the sum of the radii, and positive), the two radical-line
candidates coincide, the fuzzy-equality collapse keeps only the first, and
`intersects(circle, circle)` returns exactly one point; concretely, the
circles centred (0,0) and (10,0) with radius 5 yield exactly the single
point (5, 0). -/
theorem c6_tangent_circles_single_point :
    (∀ (c1 c2 : Circle) (acc : List Vec),
        c1.pos.dist c2.pos = c1.radius + c2.radius →
        0 < c1.pos.dist c2.pos →
        intersectsCircleCircle c1 c2 acc = ([circleP c1 c2], true))
  ∧ intersectsCircleCircle ⟨⟨0, 0⟩, 5⟩ ⟨⟨10, 0⟩, 5⟩ [] = ([⟨5, 0⟩], true) := by
  have main : ∀ (c1 c2 : Circle) (acc : List Vec),
      c1.pos.dist c2.pos = c1.radius + c2.radius →
      0 < c1.pos.dist c2.pos →
      intersectsCircleCircle c1 c2 acc = ([circleP c1 c2], true) := by
    intro c1 c2 acc hd hpos
    have hdd : circleDist c1 c2 = c1.radius + c2.radius := hd
    have hne2 : c1.radius + c2.radius ≠ 0 := by
      rw [← hdd]
      exact ne_of_gt hpos
    have hadj : circleAdj c1 c2 = c1.radius := by
      unfold circleAdj
      rw [hdd]
      field_simp
      ring
    have hsqr : circleSqrHyp c1 c2 = 0 := by
      unfold circleSqrHyp
      rw [hadj]
      ring
    have hhyp : circleHyp c1 c2 = 0 := by
      unfold circleHyp
      rw [hsqr, Real.sqrt_zero]
    have h1 : circleInter1 c1 c2 = circleP c1 c2 := by
      unfold circleInter1
      rw [hhyp]
      simp
    have h2 : circleInter2 c1 c2 = circleP c1 c2 := by
      unfold circleInter2
      rw [hhyp]
      simp
    unfold intersectsCircleCircle
    rw [if_neg (by rw [hsqr]; exact lt_irrefl 0), h1, h2]
    simp [vequal, equal_self]
  refine ⟨main, ?_⟩
  have hdist : (⟨⟨0, 0⟩, 5⟩ : Circle).pos.dist (⟨⟨10, 0⟩, 5⟩ : Circle).pos
      = 10 :=
    dist_eval (by norm_num) (by norm_num)
  rw [main ⟨⟨0, 0⟩, 5⟩ ⟨⟨10, 0⟩, 5⟩ [] (by rw [hdist]; norm_num)
    (by rw [hdist]; norm_num)]
  have hadj : circleAdj ⟨⟨0, 0⟩, 5⟩ ⟨⟨10, 0⟩, 5⟩ = 5 := by
    unfold circleAdj circleDist
    rw [hdist]
    norm_num
  have hp : circleP ⟨⟨0, 0⟩, 5⟩ ⟨⟨10, 0⟩, 5⟩ = ⟨5, 0⟩ := by
    unfold circleP circleDist
    rw [hadj, hdist]
    simp [Vec.scale, Vec.sub_def, Vec.add_def]
    norm_num
  rw [hp]

/-- Witness for `c6_tangent_circles_single_point`: the circles centred
(0, 0) with radius 3 and (5, 0) with radius 2, externally tangent since the
centre distance 5 equals 3 + 2. -/
theorem c6_tangent_circles_single_point_witness :
    intersectsCircleCircle ⟨⟨0, 0⟩, 3⟩ ⟨⟨5, 0⟩, 2⟩ []
      = ([circleP ⟨⟨0, 0⟩, 3⟩ ⟨⟨5, 0⟩, 2⟩], true) :=
  c6_tangent_circles_single_point.1 ⟨⟨0, 0⟩, 3⟩ ⟨⟨5, 0⟩, 2⟩ []
    (by
      rw [show (⟨⟨0, 0⟩, 3⟩ : Circle).pos.dist (⟨⟨5, 0⟩, 2⟩ : Circle).pos = 5
        from dist_eval (by norm_num) (by norm_num)]
      norm_num)
    (by
      rw [show (⟨⟨0, 0⟩, 3⟩ : Circle).pos.dist (⟨⟨5, 0⟩, 2⟩ : Circle).pos = 5
        from dist_eval (by norm_num) (by norm_num)]
      norm_num)

/-- Claim C3: evaluation of `intersects(circle, line)` at the failing
inputs.  The segment from (-10, 5) to (10, 5) is exactly tangent to the
circle centred (0, 0) of radius 5 (perpendicular distance 5 with closest
point (0, 5) in the middle of the segment), yet the code returns false with
the empty sequence, because its first check `utils::equal(dist, c.radius)`
rejects precisely the near-tangent configurations.  Conversely, for the
circle of radius 1/20 and the segment from (-1, 3/10) to (1, 3/10), the
perpendicular distance 3/10 exceeds radius + EPSILON = 3/20, yet the code
returns the point (0, 3/10), because only the fuzzy tangency checks guard
the chord computation.  The claim (and spec section 4.3) state the
opposite behaviour in both cases, matching the code's own comments; the
condition of the first check is a slip. -/
theorem c3_tangent_line_rejected :
    Line.dist ⟨⟨-10, 5⟩, ⟨10, 5⟩⟩ ⟨0, 0⟩ = 5
  ∧ intersectsCircleLine ⟨⟨0, 0⟩, 5⟩ ⟨⟨-10, 5⟩, ⟨10, 5⟩⟩ [] = ([], false)
  ∧ Line.dist ⟨⟨-1, 3 / 10⟩, ⟨1, 3 / 10⟩⟩ ⟨0, 0⟩ = 3 / 10
  ∧ (⟨⟨0, 0⟩, 1 / 20⟩ : Circle).radius + EPSILON
      < Line.dist ⟨⟨-1, 3 / 10⟩, ⟨1, 3 / 10⟩⟩ ⟨0, 0⟩
  ∧ intersectsCircleLine ⟨⟨0, 0⟩, 1 / 20⟩ ⟨⟨-1, 3 / 10⟩, ⟨1, 3 / 10⟩⟩ []
      = ([⟨0, 3 / 10⟩], true) := by
  have hd5 : Line.dist ⟨⟨-10, 5⟩, ⟨10, 5⟩⟩ ⟨0, 0⟩ = 5 := by
    simp only [Line.dist]
    norm_num
    rw [sqrt_eq_of (show (0 : ℝ) ≤ 20 by norm_num)
      (show (20 : ℝ) * 20 = 400 by norm_num)]
    norm_num
  have hd3 : Line.dist ⟨⟨-1, 3 / 10⟩, ⟨1, 3 / 10⟩⟩ ⟨0, 0⟩ = 3 / 10 := by
    simp only [Line.dist]
    norm_num
    rw [sqrt_eq_of (show (0 : ℝ) ≤ 2 by norm_num)
      (show (2 : ℝ) * 2 = 4 by norm_num),
      show |(3 : ℝ) / 5| = 3 / 5 from abs_of_nonneg (by norm_num)]
    norm_num
  refine ⟨hd5, ?_, hd3, ?_, ?_⟩
  · simp [intersectsCircleLine, hd5, equal_self]
  · rw [hd3]
    norm_num [EPSILON]
  · have h1 : equal (Line.dist ⟨⟨-1, 3 / 10⟩, ⟨1, 3 / 10⟩⟩
        (⟨⟨0, 0⟩, 1 / 20⟩ : Circle).pos) (⟨⟨0, 0⟩, 1 / 20⟩ : Circle).radius
        = false := by
      apply equal_false
      rw [show (⟨⟨0, 0⟩, 1 / 20⟩ : Circle).pos = (⟨0, 0⟩ : Vec) from rfl, hd3]
      simp [EPSILON, abs_le]
      norm_num
    have hcp : closestPointToLine ⟨⟨0, 0⟩, 1 / 20⟩ ⟨⟨-1, 3 / 10⟩, ⟨1, 3 / 10⟩⟩
        = ⟨0, 3 / 10⟩ := by
      simp [closestPointToLine, closestT, Line.vector, Vec.smul, Vec.dot,
        Vec.mag2, Vec.sub_def, Vec.add_def]
    have h2 : equal (distToLine ⟨⟨0, 0⟩, 1 / 20⟩ ⟨⟨-1, 3 / 10⟩, ⟨1, 3 / 10⟩⟩)
        ((⟨⟨0, 0⟩, 1 / 20⟩ : Circle).radius * (⟨⟨0, 0⟩, 1 / 20⟩ : Circle).radius)
        = true := by
      apply equal_true
      rw [show distToLine ⟨⟨0, 0⟩, 1 / 20⟩ ⟨⟨-1, 3 / 10⟩, ⟨1, 3 / 10⟩⟩
          = 9 / 100 by
        rw [distToLine, hcp]
        simp [Vec.mag2, Vec.sub_def]
        norm_num]
      simp [EPSILON, abs_le]
      norm_num
    unfold intersectsCircleLine
    rw [if_neg (show ¬(equal (Line.dist ⟨⟨-1, 3 / 10⟩, ⟨1, 3 / 10⟩⟩
        (⟨⟨0, 0⟩, 1 / 20⟩ : Circle).pos)
        (⟨⟨0, 0⟩, 1 / 20⟩ : Circle).radius = true) by rw [h1]; simp),
      if_pos h2, hcp]

end DefGeometry2D
